import Mathlib

/-!
# Verification of the Voice AI evaluation pipeline

A shallow embedding, in Lean, of the core logic of the bot-to-bot voice
simulation repository:

* `tracing.py` — `SimulationTracer`: per-turn metric events, latency
  derivation and session summaries;
* `simulation.py` — `OutputTranscriptTracker`: transcript collection, the
  rate-limited goal monitor and the stop-signal file write;
* `goal_detector.py` — `GoalDetector.check_goal_met`: fail-safe goal
  judgment;
* `app.py` — `generate_unified_transcript`: transcript merge and the
  role-anonymised simplified projection;
* `llm_judge.py` — `SimpleLLMJudge.evaluate_simulation`: per-criterion score
  aggregation.

Conventions used throughout:

* Python floats (wall-clock timestamps, latencies, confidences, scores) are
  modelled as rationals `ℚ`; Python timestamp *strings* keep type `String`
  (Python compares them lexicographically by code point, exactly as Lean does).
* Python `None` becomes `Option.none`; fallible operations return `Except`.
* Python dicts (which preserve insertion order) become association lists with
  in-place-overwrite assignment (`setKey`) and first-match lookup
  (`lookupKey`).
* External collaborators (wall clock, judgment LLM service, filesystem) are
  passed in as explicit inputs: every call site that reads `time.time()`
  receives a `now : ℚ` argument, the judgment service is an oracle function
  from the prompt to a parsed-or-failed response, and stop-signal /
  transcript files are explicit state.
-/

namespace VoiceEval

/-- Python dict assignment `d[k] = v` on an insertion-ordered association
list: overwrite the first binding of `k` in place, or append a new one. -/
def setKey {α β : Type} [DecidableEq α] (k : α) (v : β) :
    List (α × β) → List (α × β)
  | [] => [(k, v)]
  | (k2, v2) :: rest =>
      if k2 = k then (k, v) :: rest else (k2, v2) :: setKey k v rest

/-- Python dict lookup `d.get(k)`: the first binding of `k`, if any. -/
def lookupKey {α β : Type} [DecidableEq α] (k : α) :
    List (α × β) → Option β
  | [] => none
  | (k2, v2) :: rest => if k2 = k then some v2 else lookupKey k rest

/-! ## Turn tracer (`tracing.py`)

`MetricType` is a `str` enum in the source; its members are used as plain
strings, so they are modelled as `String` constants. -/

def VAD_START : String := "vad_start"

def VAD_END : String := "vad_end"

def STT_START : String := "stt_start"

def STT_END : String := "stt_end"

def LLM_START : String := "llm_start"

def LLM_FIRST_TOKEN : String := "llm_first_token"

def LLM_END : String := "llm_end"

def TTS_START : String := "tts_start"

def TTS_FIRST_TOKEN : String := "tts_first_token"

def TTS_END : String := "tts_end"

def AUDIO_OUT_START : String := "audio_out_start"

def TURN_START : String := "turn_start"

def TURN_END : String := "turn_end"

/-- Model of `MetricEvent` dataclass of `tracing.py`. Metadata values are strings
(the numeric `response_length` payload is stored via `toString`). Turn ids
are modelled by the tracer's strictly increasing counter: the Python id
string `turn_{counter}_{ms}` is uniquely determined by the counter within
one tracer's lifetime. -/
structure MetricEvent where
  event_type : String
  timestamp : ℚ
  bot_name : String
  metadata : List (String × String)
  turn_id : Nat
deriving Repr, DecidableEq

/-- Model of `LatencyMetrics` dataclass of `tracing.py`: every latency is optional
(`None` in Python when its defining event pair was not recorded). -/
structure LatencyMetrics where
  turn_id : Nat
  bot_name : String
  vad_latency : Option ℚ := none
  stt_latency : Option ℚ := none
  llm_latency : Option ℚ := none
  llm_first_token_latency : Option ℚ := none
  tts_latency : Option ℚ := none
  tts_first_token_latency : Option ℚ := none
  end_to_end_latency : Option ℚ := none
  turn_duration : Option ℚ := none
  first_llm_token_timestamp : Option ℚ := none
  first_spoken_token_timestamp : Option ℚ := none
deriving Repr, DecidableEq

/-- Mutable state of a `SimulationTracer` instance (`tracing.py`,
`__init__`). `turn_events` is the dict `turn_id -> (event_type -> timestamp)`
used for latency calculation. -/
structure TracerState where
  bot_name : String
  events : List MetricEvent
  current_turn_id : Option Nat
  turn_counter : Nat
  first_llm_token_timestamp : Option ℚ
  first_spoken_token_timestamp : Option ℚ
  turn_events : List (Nat × List (String × ℚ))
deriving Repr, DecidableEq

/-- Model of `SimulationTracer.__init__`. -/
def initTracer (bot_name : String) : TracerState :=
  { bot_name := bot_name
    events := []
    current_turn_id := none
    turn_counter := 0
    first_llm_token_timestamp := none
    first_spoken_token_timestamp := none
    turn_events := [] }

/-- Model of `SimulationTracer._get_turn_id`: bump the counter and return the fresh
turn id. -/
def get_turn_id (s : TracerState) : Nat × TracerState :=
  (s.turn_counter + 1, { s with turn_counter := s.turn_counter + 1 })

/-- Model of `SimulationTracer._record_event`: resolve the turn id (argument, else
current, else a fresh implicit turn), append the event, index its timestamp
in `turn_events`, and latch the session-wide first-token timestamps. `now`
stands for the `time.time()` call. -/
def record_event (s : TracerState) (event_type : String) (now : ℚ)
    (metadata : List (String × String) := [])
    (turn_id : Option Nat := none) : TracerState :=
  let resolved : Nat × TracerState :=
    match turn_id with
    | some t => (t, s)
    | none =>
      match s.current_turn_id with
      | some t => (t, s)
      | none =>
        let fresh := get_turn_id s
        (fresh.1, { fresh.2 with current_turn_id := some fresh.1 })
  let tid := resolved.1
  let s1 := resolved.2
  let event : MetricEvent :=
    { event_type := event_type, timestamp := now, bot_name := s1.bot_name
      metadata := metadata, turn_id := tid }
  let te :=
    match lookupKey tid s1.turn_events with
    | some m => setKey tid (setKey event_type now m) s1.turn_events
    | none => s1.turn_events ++ [(tid, [(event_type, now)])]
  { s1 with
    events := s1.events ++ [event]
    turn_events := te
    first_llm_token_timestamp :=
      if event_type = LLM_FIRST_TOKEN ∧ s1.first_llm_token_timestamp = none
      then some now else s1.first_llm_token_timestamp
    first_spoken_token_timestamp :=
      if event_type = TTS_FIRST_TOKEN ∧ s1.first_spoken_token_timestamp = none
      then some now else s1.first_spoken_token_timestamp }

/-- Model of `SimulationTracer.start_turn`: allocate a fresh turn id, make it current,
and record a `turn_start` event for it. (Note: the source does **not** end a
previously open turn here.) -/
def start_turn (s : TracerState) (now : ℚ) : Nat × TracerState :=
  let fresh := get_turn_id s
  let s1 := { fresh.2 with current_turn_id := some fresh.1 }
  (fresh.1, record_event s1 TURN_START now [] (some fresh.1))

/-- Model of `SimulationTracer.end_turn`: if a turn is open, record its `turn_end`
event (the metric calculation it triggers is log-only) and clear the current
pointer. -/
def end_turn (s : TracerState) (now : ℚ) : TracerState :=
  match s.current_turn_id with
  | none => s
  | some tid =>
    let s1 := record_event s TURN_END now [] (some tid)
    { s1 with current_turn_id := none }

/-- Model of `SimulationTracer.record_vad_start`. -/
def record_vad_start (s : TracerState) (now : ℚ) : TracerState :=
  record_event s VAD_START now

/-- Model of `SimulationTracer.record_vad_end`. -/
def record_vad_end (s : TracerState) (now : ℚ) : TracerState :=
  record_event s VAD_END now

/-- Model of `SimulationTracer.record_stt_start`. -/
def record_stt_start (s : TracerState) (now : ℚ) : TracerState :=
  record_event s STT_START now

/-- Model of `SimulationTracer.record_stt_end`. -/
def record_stt_end (s : TracerState) (now : ℚ) (transcript : String) :
    TracerState :=
  record_event s STT_END now [("transcript", transcript)]

/-- Model of `SimulationTracer.record_llm_start`. -/
def record_llm_start (s : TracerState) (now : ℚ) : TracerState :=
  record_event s LLM_START now

/-- Model of `SimulationTracer.record_llm_first_token`. -/
def record_llm_first_token (s : TracerState) (now : ℚ) (token : String) :
    TracerState :=
  record_event s LLM_FIRST_TOKEN now [("first_token", token)]

/-- Model of `SimulationTracer.record_llm_end`. -/
def record_llm_end (s : TracerState) (now : ℚ) (response : String) :
    TracerState :=
  record_event s LLM_END now [("response_length", toString response.length)]

/-- Model of `SimulationTracer.record_tts_start`. -/
def record_tts_start (s : TracerState) (now : ℚ) (text : String) :
    TracerState :=
  record_event s TTS_START now [("text", text)]

/-- Model of `SimulationTracer.record_tts_first_token`. -/
def record_tts_first_token (s : TracerState) (now : ℚ) : TracerState :=
  record_event s TTS_FIRST_TOKEN now

/-- Model of `SimulationTracer.record_tts_end`. -/
def record_tts_end (s : TracerState) (now : ℚ) : TracerState :=
  record_event s TTS_END now

/-- Model of `SimulationTracer.record_audio_out_start`. -/
def record_audio_out_start (s : TracerState) (now : ℚ) : TracerState :=
  record_event s AUDIO_OUT_START now

/-- Body of `SimulationTracer._calculate_turn_metrics` once the per-turn
event dict has been fetched: each latency is `end - start` when both events
of its pair are present, `None` otherwise; the two per-turn first-token
timestamps are copied only inside their latency branches. -/
def compute_metrics (tid : Nat) (bn : String) (ev : List (String × ℚ)) :
    LatencyMetrics :=
  { turn_id := tid
    bot_name := bn
    vad_latency :=
      match lookupKey VAD_START ev, lookupKey VAD_END ev with
      | some a, some b => some (b - a)
      | _, _ => none
    stt_latency :=
      match lookupKey STT_START ev, lookupKey STT_END ev with
      | some a, some b => some (b - a)
      | _, _ => none
    llm_latency :=
      match lookupKey LLM_START ev, lookupKey LLM_END ev with
      | some a, some b => some (b - a)
      | _, _ => none
    llm_first_token_latency :=
      match lookupKey LLM_START ev, lookupKey LLM_FIRST_TOKEN ev with
      | some a, some b => some (b - a)
      | _, _ => none
    first_llm_token_timestamp :=
      match lookupKey LLM_START ev, lookupKey LLM_FIRST_TOKEN ev with
      | some _, some b => some b
      | _, _ => none
    tts_latency :=
      match lookupKey TTS_START ev, lookupKey TTS_END ev with
      | some a, some b => some (b - a)
      | _, _ => none
    tts_first_token_latency :=
      match lookupKey TTS_START ev, lookupKey TTS_FIRST_TOKEN ev with
      | some a, some b => some (b - a)
      | _, _ => none
    first_spoken_token_timestamp :=
      match lookupKey TTS_START ev, lookupKey TTS_FIRST_TOKEN ev with
      | some _, some b => some b
      | _, _ => none
    end_to_end_latency :=
      match lookupKey VAD_START ev, lookupKey AUDIO_OUT_START ev with
      | some a, some b => some (b - a)
      | _, _ => none
    turn_duration :=
      match lookupKey TURN_START ev, lookupKey TURN_END ev with
      | some a, some b => some (b - a)
      | _, _ => none }

/-- Model of `SimulationTracer._calculate_turn_metrics`: `None` when the turn id is
unknown. -/
def calculate_turn_metrics (s : TracerState) (tid : Nat) :
    Option LatencyMetrics :=
  (lookupKey tid s.turn_events).map (compute_metrics tid s.bot_name)

/-- Python truthiness of an optional float, as used by
`m.get('vad_latency')` in a boolean position: `None` and `0.0` are falsy. -/
def pyTruthy : Option ℚ → Bool
  | none => false
  | some v => decide (v ≠ 0)

/-- One average line of `SimulationTracer.get_summary`:
`sum(m.get(k, 0) or 0 for m in ms) / len([m for m in ms if m.get(k)])`.
Absent values are summed as `0`; the denominator counts the *truthy* values;
a zero denominator raises `ZeroDivisionError` in Python, modelled as
`Except.error`. -/
def avgOf (vals : List (Option ℚ)) : Except String ℚ :=
  let den := (vals.filter pyTruthy).length
  if den = 0 then Except.error "ZeroDivisionError"
  else Except.ok ((vals.map (fun o => o.getD 0)).sum / (den : ℚ))

/-- The `average_latencies` block of the summary dict. -/
structure AverageLatencies where
  vad_latency : Option ℚ
  stt_latency : Option ℚ
  llm_latency : Option ℚ
  tts_latency : Option ℚ
  end_to_end_latency : Option ℚ
deriving Repr, DecidableEq

/-- The summary dict returned by `SimulationTracer.get_summary`. -/
structure TracerSummary where
  bot_name : String
  total_events : Nat
  total_turns : Nat
  first_llm_token_timestamp : Option ℚ
  first_spoken_token_timestamp : Option ℚ
  average_latencies : AverageLatencies
  turn_metrics : List LatencyMetrics
deriving Repr, DecidableEq

/-- The `all_metrics` list built at the top of `get_summary`: metrics of
every turn whose event dict contains a `turn_end` entry, in `turn_events`
insertion order. -/
def all_turn_metrics (s : TracerState) : List LatencyMetrics :=
  s.turn_events.filterMap fun p =>
    if (lookupKey TURN_END p.2).isSome
    then some (compute_metrics p.1 s.bot_name p.2)
    else none

/-- Model of `SimulationTracer.get_summary`. The five aggregate averages are computed
(in source order) only when `all_metrics` is non-empty; each one can raise
`ZeroDivisionError` when no completed turn has a truthy value for that
metric. -/
def get_summary (s : TracerState) : Except String TracerSummary := do
  let ms := all_turn_metrics s
  let avgs ←
    if ms.isEmpty then
      pure (AverageLatencies.mk none none none none none)
    else do
      let v ← avgOf (ms.map (·.vad_latency))
      let st ← avgOf (ms.map (·.stt_latency))
      let l ← avgOf (ms.map (·.llm_latency))
      let t ← avgOf (ms.map (·.tts_latency))
      let e ← avgOf (ms.map (·.end_to_end_latency))
      pure (AverageLatencies.mk (some v) (some st) (some l) (some t) (some e))
  pure
    { bot_name := s.bot_name
      total_events := s.events.length
      total_turns :=
        (s.turn_events.filter
          (fun p => (lookupKey TURN_END p.2).isSome)).length
      first_llm_token_timestamp := s.first_llm_token_timestamp
      first_spoken_token_timestamp := s.first_spoken_token_timestamp
      average_latencies := avgs
      turn_metrics := ms }

/-! ## Goal detector (`goal_detector.py`)

The Gemini call plus `json.loads` are abstracted as an oracle
`service : String → Except String GoalJson` mapping the prompt to either a
parsed JSON object or a failure message (network error, malformed response,
bad field types — anything the `try` block can catch). -/

/-- The parsed JSON object a judgment response may carry; every field is
optional (`result.get(..., default)` in the source). -/
structure GoalJson where
  goal_met : Option Bool
  confidence : Option ℚ
  reasoning : Option String
deriving Repr, DecidableEq

/-- The dict returned by `GoalDetector.check_goal_met`: all three keys are
always present. -/
structure GoalResult where
  goal_met : Bool
  confidence : ℚ
  reasoning : String
deriving Repr, DecidableEq

/-- The `conversation_text` accumulation of `check_goal_met`: the last 10
history entries, skipping falsy (empty) messages, each rendered as
`speaker: message\n`. -/
def conversation_text (history : List (String × String)) : String :=
  ((history.drop (history.length - 10)).filter (fun p => p.2 ≠ "")).foldl
    (fun acc p => acc ++ p.1 ++ ": " ++ p.2 ++ "\n") ""

/-- The goal-based prompt template of `check_goal_met` (taken when a
non-empty goal description is supplied). -/
def met_prompt (g conv : String) : String :=
  "Analyze this conversation to determine if the stated goal has been achieved.\n\nGoal: "
    ++ g ++ "\n\nRecent Conversation:\n" ++ conv
    ++ "\n\nDetermine if the conversation goal has been met. Respond with JSON:\n\x7b\n    \"goal_met\": true/false,\n    \"confidence\": 0.0-1.0,\n    \"reasoning\": \"brief explanation\"\n\x7d"

/-- The natural-conclusion prompt template of `check_goal_met` (taken when
the goal description is absent or empty, i.e. falsy). -/
def natural_prompt (conv : String) : String :=
  "Analyze this conversation to determine if it has reached a natural conclusion.\n\nRecent Conversation:\n"
    ++ conv
    ++ "\n\nDetermine if the conversation has naturally concluded (e.g., both parties have said goodbye, \nthe main topic is resolved, or there\x27s a clear ending). Respond with JSON:\n\x7b\n    \"goal_met\": true/false,\n    \"confidence\": 0.0-1.0,\n    \"reasoning\": \"brief explanation\"\n\x7d"

/-- Prompt selection in `check_goal_met`: `if goal_description:` (Python
truthiness, so an empty string also selects the natural-conclusion form). -/
def goal_prompt (goal : Option String) (conv : String) : String :=
  match goal with
  | some g => if g = "" then natural_prompt conv else met_prompt g conv
  | none => natural_prompt conv

/-- Model of `GoalDetector.check_goal_met`: on a successful call the parsed fields
are coerced with defaults `False`, `0.0`, `""`; on any failure of the call
or of parsing, the `except` branch returns not-met with the failure text as
reasoning — the function never raises to its caller. -/
def check_goal_met (history : List (String × String)) (goal : Option String)
    (service : String → Except String GoalJson) : GoalResult :=
  match service (goal_prompt goal (conversation_text history)) with
  | Except.error e =>
    { goal_met := false
      confidence := 0
      reasoning := "Error during detection: " ++ e }
  | Except.ok j =>
    { goal_met := j.goal_met.getD false
      confidence := j.confidence.getD 0
      reasoning := j.reasoning.getD "" }

/-! ## Output transcript tracker (`simulation.py`)

`OutputTranscriptTracker.process_frame` is the goal monitor's hot path: it
collects the bot's spoken output into the shared transcript list, counts
spoken turns, and every so often runs a goal check whose positive outcome
writes the stop-signal file. The wall clock (`time.time()`,
`datetime.now()`), the judgment service, and the stop-signal file are
explicit inputs/state. -/

/-- A transcript entry as appended by `add_to_transcript` in
`simulation.py` (`timestamp` is the formatted `datetime.now()` string). -/
structure TranscriptEntry where
  timestamp : String
  speaker : String
  type : String
  text : String
deriving Repr, DecidableEq

/-- The stop-signal file payload
`json.dump({"reason": "goal_met", "result": result})`. -/
structure StopSignalFile where
  reason : String
  result : GoalResult
deriving Repr, DecidableEq

/-- Constructor-time configuration of `OutputTranscriptTracker`:
`bot_name`, whether a `goal_detector` instance was supplied, the goal
description, and whether a stop-signal path was supplied. -/
structure TrackerConfig where
  bot_name : String
  has_goal_detector : Bool
  goal_description : Option String
  has_stop_signal_path : Bool
deriving Repr, DecidableEq

/-- Mutable state of `OutputTranscriptTracker`, plus the two pieces of
external state its frame handler touches: the shared `transcript` list
(`transcript_ref`, appended through `add_func`) and the stop-signal file
(`none` while no file exists at the path). -/
structure TrackerState where
  transcript : List TranscriptEntry
  llm_text_buffer : String
  llm_first_token_seen : List Nat
  goal_met : Bool
  last_goal_check_turn : Nat
  turn_count : Nat
  stop_signal_file : Option StopSignalFile
deriving Repr, DecidableEq

/-- Model of `OutputTranscriptTracker.__init__` (with no stop-signal file existing
yet). -/
def initTracker : TrackerState :=
  { transcript := []
    llm_text_buffer := ""
    llm_first_token_seen := []
    goal_met := false
    last_goal_check_turn := 0
    turn_count := 0
    stop_signal_file := none }

/-- The frames `process_frame` dispatches on (`LLMTextFrame`,
`TTSTextFrame`, anything else). -/
inductive Frame where
  | llmText (text : String)
  | ttsText (text : String)
  | other
deriving Repr, DecidableEq

/-- Per-frame external inputs: the frame itself, the `datetime.now()`
string used by `add_to_transcript`, the `time.time()` value used by tracer
records, the judgment-service oracle for a goal check issued while handling
this frame, and the filesystem's behaviour should this frame attempt the
stop-signal marker write: `write_fails = true` means
`mkdir`/`open`/`json.dump` raises (an `OSError` and the like), to be caught
by the `except` handler of the goal-check block. -/
structure FrameInput where
  frame : Frame
  nowStr : String
  now : ℚ
  service : String → Except String GoalJson
  write_fails : Bool

/-- The `conversation_history` built before a goal check: the last 10
transcript entries as `(speaker, message)` pairs. -/
def recent_history (transcript : List TranscriptEntry) :
    List (String × String) :=
  (transcript.drop (transcript.length - 10)).map fun e => (e.speaker, e.text)

/-- The goal-check block of `process_frame` — the `try` body of
`if self.goal_detector and self.turn_count >= self.last_goal_check_turn + 3`:
run `check_goal_met` on the recent history (it never raises); if the result
reports `goal_met` and `confidence > 0.7`, set the `goal_met` flag **and
then** (when a stop-signal path is configured) write the stop-signal file —
`open(path, 'w')`, an overwriting write; finally record the current turn
count as the last-checked turn. The marker write is the one fallible
statement of the `try` body: when it raises (`write_fails`), the `except`
handler only logs, so `last_goal_check_turn` is **not** updated (the
`goal_met` flag, set before the write, keeps its value). A failed write is
modelled as leaving the previous marker state — `mkdir`/`open` failures
never touch the file, and a `json.dump` failure can at worst leave
truncated content in a file that still exists, so existence is preserved in
every case (no claim depends on the content after a failed write). -/
def goal_check_step (cfg : TrackerConfig) (ts : TrackerState)
    (service : String → Except String GoalJson) (write_fails : Bool) :
    TrackerState :=
  let result :=
    check_goal_met (recent_history ts.transcript) cfg.goal_description service
  if result.goal_met = true ∧ (7 : ℚ)/10 < result.confidence then
    let ts1 := { ts with goal_met := true }
    if cfg.has_stop_signal_path then
      if write_fails = true then ts1
      else
        { ts1 with
          stop_signal_file := some { reason := "goal_met", result := result }
          last_goal_check_turn := ts.turn_count }
    else { ts1 with last_goal_check_turn := ts.turn_count }
  else { ts with last_goal_check_turn := ts.turn_count }

/-- Model of `OutputTranscriptTracker.process_frame` (together with the tracer calls
it makes). The `LLMTextFrame` branch buffers text and records the first LLM
token once per tracer turn; the `TTSTextFrame` branch appends a transcript
entry, records `tts_start`, bumps the spoken-turn counter, and runs the
goal-check block when a detector is configured and at least 3 turns have
passed since the last check. -/
def process_frame (cfg : TrackerConfig) (ts : TrackerState)
    (tr : TracerState) (inp : FrameInput) : TrackerState × TracerState :=
  match inp.frame with
  | Frame.llmText text =>
    if text = "" then (ts, tr)
    else
      let ts1 := { ts with llm_text_buffer := ts.llm_text_buffer ++ text }
      match tr.current_turn_id with
      | some tid =>
        if tid ∈ ts1.llm_first_token_seen then (ts1, tr)
        else
          ({ ts1 with llm_first_token_seen := tid :: ts1.llm_first_token_seen },
           record_llm_first_token tr inp.now (text.take 50))
      | none => (ts1, tr)
  | Frame.ttsText text =>
    if text = "" then (ts, tr)
    else
      let ts1 :=
        { ts with
          transcript := ts.transcript ++
            [({ timestamp := inp.nowStr, speaker := cfg.bot_name
                type := "response", text := text } : TranscriptEntry)] }
      let tr1 := record_tts_start tr inp.now text
      let ts2 := { ts1 with turn_count := ts1.turn_count + 1 }
      if cfg.has_goal_detector = true ∧
          ts2.last_goal_check_turn + 3 ≤ ts2.turn_count then
        (goal_check_step cfg ts2 inp.service inp.write_fails, tr1)
      else (ts2, tr1)
  | Frame.other => (ts, tr)

/-- Folding `process_frame` over a frame sequence. -/
def run_frames (cfg : TrackerConfig) :
    TrackerState × TracerState → List FrameInput → TrackerState × TracerState
  | st, [] => st
  | st, inp :: rest => run_frames cfg (process_frame cfg st.1 st.2 inp) rest

/-- Whether handling `inp` in state `ts` issues a judgment-service call:
exactly the guard of the goal-check block of `process_frame` (a non-empty
`TTSTextFrame`, a configured detector, and the just-incremented turn count
at least 3 beyond the last check). -/
def goalCheckIssued (cfg : TrackerConfig) (ts : TrackerState)
    (inp : FrameInput) : Bool :=
  match inp.frame with
  | Frame.ttsText text =>
    decide (text ≠ "") && cfg.has_goal_detector &&
      decide (ts.last_goal_check_turn + 3 ≤ ts.turn_count + 1)
  | _ => false

/-- The turn counts at which judgment-service calls are issued while
folding `process_frame` over a frame sequence (each recorded count is the
value of `turn_count` at the moment `check_goal_met` is invoked). -/
def check_turns (cfg : TrackerConfig) :
    TrackerState × TracerState → List FrameInput → List Nat
  | _, [] => []
  | st, inp :: rest =>
    let rest_turns := check_turns cfg (process_frame cfg st.1 st.2 inp) rest
    if goalCheckIssued cfg st.1 inp
    then (st.1.turn_count + 1) :: rest_turns
    else rest_turns

/-! ## Transcript merge (`app.py`, `generate_unified_transcript`)

The per-bot transcript JSON artifacts are the `json_data` dicts persisted by
`simulation.py`. `list.sort` in Python is Timsort, a stable sort; stable
sorts on a key are extensionally unique, so it is modelled by
`List.mergeSort` (stable by `List.sublist_mergeSort`). Timestamps are the
formatted strings compared lexicographically by Python `<`, exactly Lean's
`String` order. -/

/-- One bot's persisted transcript artifact (`json_data` in
`simulation.py`). -/
structure BotTranscript where
  bot_name : String
  start_time : String
  end_time : String
  entries : List TranscriptEntry
deriving Repr, DecidableEq

/-- One entry of the unified conversation (the dicts appended to
`all_entries`). -/
structure UnifiedEntry where
  timestamp : String
  bot : String
  speaker : String
  message : String
  type : String
deriving Repr, DecidableEq

/-- The per-source loop of `generate_unified_transcript` that re-tags each
entry with its originating bot identity. -/
def toUnifiedEntries (b : BotTranscript) : List UnifiedEntry :=
  b.entries.map fun e =>
    { timestamp := e.timestamp, bot := b.bot_name, speaker := e.speaker
      message := e.text, type := e.type }

/-- The sort key comparison: `all_entries.sort(key=lambda x: x["timestamp"])`. -/
def tsLE (a b : UnifiedEntry) : Bool :=
  decide (a.timestamp ≤ b.timestamp)

/-- Model of `all_entries` after the stable sort: union of both entry sequences
(source 1 first), sorted by timestamp. -/
def merged_entries (b1 b2 : BotTranscript) : List UnifiedEntry :=
  (toUnifiedEntries b1 ++ toUnifiedEntries b2).mergeSort tsLE

/-- The full merged transcript artifact (`unified_data`). -/
structure UnifiedTranscript where
  simulation_id : String
  bot1_name : String
  bot2_name : String
  start_time : String
  end_time : String
  total_turns : Nat
  conversation : List UnifiedEntry
deriving Repr, DecidableEq

/-- Assembly of `unified_data`. -/
def unified_transcript (sid : String) (b1 b2 : BotTranscript) :
    UnifiedTranscript :=
  { simulation_id := sid
    bot1_name := b1.bot_name
    bot2_name := b2.bot_name
    start_time := min b1.start_time b2.start_time
    end_time := max b1.end_time b2.end_time
    total_turns := (merged_entries b1 b2).length
    conversation := merged_entries b1 b2 }

/-- One `{bot, message}` pair of the simplified projection. -/
structure SimplifiedMessage where
  bot : String
  message : String
deriving Repr, DecidableEq

/-- The per-entry body of the simplified-projection loop: keep only
conversation types, and relabel the originating bot identity to the
anonymous roles `Bot 1` / `Bot 2` (an entry matching neither name is
dropped). -/
def simplify_entry (bot1_name bot2_name : String) (e : UnifiedEntry) :
    Option SimplifiedMessage :=
  if e.type = "transcription" ∨ e.type = "response" ∨ e.type = "message" then
    if e.bot = bot1_name then some { bot := "Bot 1", message := e.message }
    else if e.bot = bot2_name then
      some { bot := "Bot 2", message := e.message }
    else none
  else none

/-- Model of `simplified_messages` as built from the sorted `all_entries`. -/
def simplified_messages (b1 b2 : BotTranscript) : List SimplifiedMessage :=
  (merged_entries b1 b2).filterMap (simplify_entry b1.bot_name b2.bot_name)

/-- The simplified transcript artifact (`simplified_data`). -/
structure SimplifiedTranscript where
  simulation_id : String
  bot1_name : String
  bot2_name : String
  messages : List SimplifiedMessage
deriving Repr, DecidableEq

deriving instance DecidableEq for Except

/-- What the merge can observe of the two source files: `none` when the
file does not exist (`os.path.exists` fails), `Except.error e` when opening
or JSON-decoding raises (caught by the surrounding `try`), `Except.ok` the
parsed artifact. -/
structure MergeFS where
  bot1_file : Option (Except String BotTranscript)
  bot2_file : Option (Except String BotTranscript)
deriving Repr, DecidableEq

/-- The outcome of `generate_unified_transcript`: the returned
`(success, message)` pair, plus the artifacts written (both `none` whenever
the function fails before its write section). -/
structure MergeResult where
  ok : Bool
  message : String
  unified : Option UnifiedTranscript
  simplified : Option SimplifiedTranscript
deriving Repr, DecidableEq

/-- Model of `generate_unified_transcript` (`app.py`): path guard, existence guard
(one shared message for either or both sources missing), JSON loads (a
failure is caught by the outer `except` before anything is written), merge,
and the two artifact writes. The success message in the source interpolates
the two output paths; it is modelled by a constant since no property here
depends on it. -/
def generate_unified_transcript (sid : String)
    (bot1_path bot2_path unified_path : Option String) (fs : MergeFS) :
    MergeResult :=
  if bot1_path.isNone ∨ bot2_path.isNone ∨ unified_path.isNone then
    { ok := false, message := "Missing transcript paths"
      unified := none, simplified := none }
  else
    match fs.bot1_file, fs.bot2_file with
    | none, _ =>
      { ok := false, message := "Bot transcript files not found yet"
        unified := none, simplified := none }
    | _, none =>
      { ok := false, message := "Bot transcript files not found yet"
        unified := none, simplified := none }
    | some (Except.error e), some _ =>
      { ok := false
        message := "Error generating unified transcript: " ++ e
        unified := none, simplified := none }
    | some (Except.ok _), some (Except.error e) =>
      { ok := false
        message := "Error generating unified transcript: " ++ e
        unified := none, simplified := none }
    | some (Except.ok b1), some (Except.ok b2) =>
      { ok := true
        message := "Unified transcript saved. Simplified transcript saved."
        unified := some (unified_transcript sid b1 b2)
        simplified := some
          { simulation_id := sid
            bot1_name := b1.bot_name
            bot2_name := b2.bot_name
            messages := simplified_messages b1 b2 } }

/-! ## Evaluation summary (`llm_judge.py`, `SimpleLLMJudge.evaluate_simulation`)

Per-criterion scores live in Python as `int`/`float` (scale), `bool`
(boolean) or `None` (unparseable response). Crucially, Python's `bool` is a
subclass of `int`, so `isinstance(score, (int, float))` is also true for
booleans — faithfully mirrored by `isNumericPy`. -/

/-- A criterion score as stored in `criteria_evaluations`. -/
inductive Score where
  | num : ℚ → Score
  | boolean : Bool → Score
  | absent : Score
deriving Repr, DecidableEq

/-- Model of `isinstance(score, (int, float))`: true for numbers **and** booleans
(Python `bool` is an `int` subclass), false for `None`. -/
def isNumericPy : Score → Bool
  | Score.num _ => true
  | Score.boolean _ => true
  | Score.absent => false

/-- Model of `isinstance(score, bool)`. -/
def isBoolPy : Score → Bool
  | Score.boolean _ => true
  | _ => false

/-- The numeric value Python arithmetic sees for a score (`True` is `1`,
`False` is `0`; `None` never reaches arithmetic). -/
def scoreVal : Score → ℚ
  | Score.num q => q
  | Score.boolean b => if b then 1 else 0
  | Score.absent => 0

/-- One element of `criteria_evaluations` (the fields the summary reads). -/
structure CriterionResult where
  score : Score
  reasoning : String
  step_by_step_analysis : String
deriving Repr, DecidableEq

/-- Round-half-to-even on rationals, the tie-breaking rule of Python
`round`. -/
def roundHalfEven (x : ℚ) : ℤ :=
  let f := ⌊x⌋
  let r := x - (f : ℚ)
  if r < 1/2 then f
  else if 1/2 < r then f + 1
  else if Even f then f else f + 1

/-- Python `round(x, n)` on an exact rational value. -/
def pyRound (x : ℚ) (n : ℕ) : ℚ :=
  (roundHalfEven (x * 10 ^ n) : ℚ) / 10 ^ n

/-- The `summary` dict of `evaluate_simulation`. -/
structure EvalSummary where
  total_criteria : Nat
  scale_criteria_count : Nat
  boolean_criteria_count : Nat
  average_scale_score : Option ℚ
  boolean_pass_rate : Option ℚ
deriving Repr, DecidableEq

/-- The summary-statistics block at the end of `evaluate_simulation`:
`scale_scores` filters by `isinstance(score, (int, float))`,
`boolean_scores` by `isinstance(score, bool)`; the average and the pass
rate are `None` exactly when their score list is empty. -/
def evaluation_summary (results : List CriterionResult) : EvalSummary :=
  let scale_scores :=
    (results.filter (fun r => isNumericPy r.score)).map fun r => scoreVal r.score
  let boolean_scores :=
    (results.filter (fun r => isBoolPy r.score)).map fun r => scoreVal r.score
  { total_criteria := results.length
    scale_criteria_count := scale_scores.length
    boolean_criteria_count := boolean_scores.length
    average_scale_score :=
      if scale_scores.isEmpty then none
      else some (pyRound (scale_scores.sum / (scale_scores.length : ℚ)) 2)
    boolean_pass_rate :=
      if boolean_scores.isEmpty then none
      else some
        (pyRound (boolean_scores.sum / (boolean_scores.length : ℚ) * 100) 1) }

/-! ## Claims -/

/-- C1: the evaluation summary claim. Refuted by the code: Python `bool` is
an `int` subclass, so `isinstance(score, (int, float))` also admits boolean
scores into `scale_scores`; for scores `[8, 6, True]` the code computes
`average_scale_score = (8 + 6 + 1) / 3 = 5.0` (claimed: `7.0`), and for
`[True, False]` it computes `average_scale_score = 0.5` (claimed: absent).
This theorem evaluates the summary at both failing inputs from the claim. -/
theorem evaluation_summary_bool_leak :
    evaluation_summary
        [{ score := Score.num 8, reasoning := "", step_by_step_analysis := "" },
         { score := Score.num 6, reasoning := "", step_by_step_analysis := "" },
         { score := Score.boolean true, reasoning := "", step_by_step_analysis := "" }] =
      { total_criteria := 3, scale_criteria_count := 3
        boolean_criteria_count := 1
        average_scale_score := some 5, boolean_pass_rate := some 100 } ∧
    evaluation_summary
        [{ score := Score.boolean true, reasoning := "", step_by_step_analysis := "" },
         { score := Score.boolean false, reasoning := "", step_by_step_analysis := "" }] =
      { total_criteria := 2, scale_criteria_count := 2
        boolean_criteria_count := 2
        average_scale_score := some (1/2), boolean_pass_rate := some 50 } := by
  constructor <;>
    norm_num [evaluation_summary, isNumericPy, isBoolPy, scoreVal, pyRound,
      roundHalfEven, List.filter, List.sum]

/-- C2 (counterexample): calling `start_turn` twice in a row on a fresh
tracer leaves turn 1 open forever — the second call records no `turn_end`
event at all (neither in the event log nor in turn 1's event dict), even
though turn 1 was still the current turn when it was made. -/
theorem start_turn_counterexample :
    ((start_turn (initTracer "bot") 0).2.current_turn_id = some 1) ∧
    ((start_turn (start_turn (initTracer "bot") 0).2 1).2.events.filter
        (fun e => e.event_type = TURN_END)).length = 0 ∧
    lookupKey 1 (start_turn (start_turn (initTracer "bot") 0).2 1).2.turn_events
      = some [(TURN_START, 0)] := by
  refine ⟨rfl, ?_, ?_⟩ <;>
    simp [start_turn, get_turn_id, record_event, initTracer, lookupKey,
      setKey, TURN_START, TURN_END]

/-- C2 (amended): `start_turn` does not end an already-open turn. It
allocates the next turn id, makes it current, and appends exactly one
`turn_start` event; no `turn_end` event is recorded for the previously open
turn (its already-recorded events are preserved unchanged in the log, but
the turn is left without an end event). -/
theorem start_turn_no_implicit_end (s : TracerState) (now : ℚ) :
    (start_turn s now).1 = s.turn_counter + 1 ∧
    (start_turn s now).2.current_turn_id = some (s.turn_counter + 1) ∧
    (start_turn s now).2.events =
      s.events ++
        [{ event_type := TURN_START, timestamp := now, bot_name := s.bot_name
           metadata := [], turn_id := s.turn_counter + 1 }] ∧
    (start_turn s now).2.events.filter (fun e => e.event_type = TURN_END) =
      s.events.filter (fun e => e.event_type = TURN_END) := by
  refine ⟨rfl, rfl, ?_, ?_⟩
  · simp [start_turn, get_turn_id, record_event]
  · simp [start_turn, get_turn_id, record_event, List.filter_append,
      TURN_START, TURN_END]

/-- C9: on any failure of the judgment call (the service oracle returns an
error, covering network errors and malformed or unparseable responses),
`check_goal_met` returns not-met with the failure text as its reasoning;
being a total function into `GoalResult`, it never raises to its caller. -/
theorem check_goal_met_fail_safe (history : List (String × String))
    (goal : Option String) (service : String → Except String GoalJson)
    (e : String)
    (h : service (goal_prompt goal (conversation_text history)) =
      Except.error e) :
    check_goal_met history goal service =
      { goal_met := false, confidence := 0
        reasoning := "Error during detection: " ++ e } := by
  simp [check_goal_met, h]

/-- Witness for C9 at a concrete conversation, goal and failing service. -/
theorem check_goal_met_fail_safe_witness :
    check_goal_met [("alice", "hi there")] (some "close the deal")
        (fun _ => Except.error "network down") =
      { goal_met := false, confidence := 0
        reasoning := "Error during detection: network down" } :=
  check_goal_met_fail_safe [("alice", "hi there")] (some "close the deal")
    (fun _ => Except.error "network down") "network down" rfl

/-- The two-sided option pattern used by every latency pair, as a bind/map
expression. -/
theorem pair_match_eq_bind (a b : Option ℚ) :
    (match a, b with
      | some x, some y => some (y - x)
      | _, _ => (none : Option ℚ)) =
      a.bind fun x => b.map fun y => y - x := by
  cases a <;> cases b <;> rfl

/-- Example tracer run for C7: one turn, `llm_start` at 10 and `llm_end` at
13. -/
def llmTurnTracer : TracerState :=
  record_llm_end (record_llm_start (start_turn (initTracer "bot") 9).2 10) 13
    "resp"

/-- C7: per-turn latency derivation. For every per-turn event dict, each of
the eight defined latency pairs yields `timestamp(end) - timestamp(start)`
exactly when both kinds are present, and the explicit absent value `none`
(never zero) otherwise; concretely, events `llm_start@10, llm_end@13`
(generate-start/generate-end in the spec's naming) give an `llm_latency` of
exactly 3, and without `llm_end` the latency is absent. -/
theorem turn_latency_pairs (tid : Nat) (bn : String)
    (ev : List (String × ℚ)) :
    ((compute_metrics tid bn ev).vad_latency =
      (lookupKey VAD_START ev).bind fun a =>
        (lookupKey VAD_END ev).map fun b => b - a) ∧
    ((compute_metrics tid bn ev).stt_latency =
      (lookupKey STT_START ev).bind fun a =>
        (lookupKey STT_END ev).map fun b => b - a) ∧
    ((compute_metrics tid bn ev).llm_latency =
      (lookupKey LLM_START ev).bind fun a =>
        (lookupKey LLM_END ev).map fun b => b - a) ∧
    ((compute_metrics tid bn ev).llm_first_token_latency =
      (lookupKey LLM_START ev).bind fun a =>
        (lookupKey LLM_FIRST_TOKEN ev).map fun b => b - a) ∧
    ((compute_metrics tid bn ev).tts_latency =
      (lookupKey TTS_START ev).bind fun a =>
        (lookupKey TTS_END ev).map fun b => b - a) ∧
    ((compute_metrics tid bn ev).tts_first_token_latency =
      (lookupKey TTS_START ev).bind fun a =>
        (lookupKey TTS_FIRST_TOKEN ev).map fun b => b - a) ∧
    ((compute_metrics tid bn ev).end_to_end_latency =
      (lookupKey VAD_START ev).bind fun a =>
        (lookupKey AUDIO_OUT_START ev).map fun b => b - a) ∧
    ((compute_metrics tid bn ev).turn_duration =
      (lookupKey TURN_START ev).bind fun a =>
        (lookupKey TURN_END ev).map fun b => b - a) ∧
    ((calculate_turn_metrics llmTurnTracer 1).map (·.llm_latency) =
      some (some 3)) ∧
    ((calculate_turn_metrics
        (record_llm_start (start_turn (initTracer "bot") 9).2 10) 1).map
      (·.llm_latency) = some none) := by
  refine ⟨pair_match_eq_bind _ _, pair_match_eq_bind _ _,
    pair_match_eq_bind _ _, pair_match_eq_bind _ _, pair_match_eq_bind _ _,
    pair_match_eq_bind _ _, pair_match_eq_bind _ _, pair_match_eq_bind _ _,
    ?_, ?_⟩ <;>
  · simp +decide [llmTurnTracer, record_llm_end, record_llm_start, start_turn,
      get_turn_id, record_event, initTracer, calculate_turn_metrics,
      compute_metrics, lookupKey, setKey, LLM_START, LLM_END, TURN_START,
      LLM_FIRST_TOKEN, VAD_START, VAD_END, STT_START, STT_END, TTS_START,
      TTS_FIRST_TOKEN, TTS_END, AUDIO_OUT_START, TURN_END]
    try norm_num

/-- The numerator of a summary average: summing with absent values
defaulted to `0` equals summing only the present values. -/
theorem sum_getD_eq_sum_filterMap : ∀ vals : List (Option ℚ),
    (vals.map (fun o => o.getD 0)).sum = (vals.filterMap id).sum := by
  intro vals
  induction vals with
  | nil => rfl
  | cons a t ih => cases a <;> simp [ih]

/-- The denominator of a summary average: when no present value is `0`,
Python truthiness agrees with presence. -/
theorem length_filter_pyTruthy : ∀ vals : List (Option ℚ),
    (∀ v ∈ vals, v ≠ some 0) →
    (vals.filter pyTruthy).length = (vals.filterMap id).length := by
  intro vals
  induction vals with
  | nil => intro _; rfl
  | cons a t ih =>
    intro h
    have ht := ih fun v hv => h v (List.mem_cons_of_mem _ hv)
    cases a with
    | none => simpa [pyTruthy] using ht
    | some x =>
      have hx : x ≠ 0 := fun h0 =>
        h (some x) (List.mem_cons_self _ _) (by rw [h0])
      simp [pyTruthy, hx, ht]

/-- C3 (counterexample): for per-turn latencies `[0.0, 2.0]` — both present
— the code's average is `2.0` (the present `0.0` is falsy in Python, so it
is dropped from the denominator while still contributing `0` to the
numerator), whereas the mean over the turns in which the metric is present
is `1.0`. -/
theorem summary_mean_zero_counterexample :
    avgOf [some 0, some 2] = Except.ok 2 ∧
    ([some (0 : ℚ), some 2].filterMap id).sum /
        (([some (0 : ℚ), some 2].filterMap id).length : ℚ) = 1 := by
  constructor <;>
  · simp +decide [avgOf, pyTruthy]
    try norm_num

/-- Example tracer run for C3: three completed turns whose `llm` latencies
are 2, absent, and 4; every other latency kind has at least one truthy
value (all in turn 1), so `get_summary` succeeds. -/
def exTracer : TracerState :=
  let s1 := (start_turn (initTracer "bot") 0).2
  let s2 := record_vad_start s1 1
  let s3 := record_vad_end s2 2
  let s4 := record_stt_start s3 2
  let s5 := record_stt_end s4 4 "hi"
  let s6 := record_audio_out_start s5 5
  let s7 := record_llm_start s6 10
  let s8 := record_llm_end s7 12 "r"
  let s9 := record_tts_start s8 12 "r"
  let s10 := record_tts_end s9 13
  let s11 := end_turn s10 20
  let s12 := (start_turn s11 21).2
  let s13 := end_turn s12 22
  let s14 := (start_turn s13 30).2
  let s15 := record_llm_start s14 30
  let s16 := record_llm_end s15 34 "r"
  end_turn s16 35

/-- C3 (amended): a summary average equals the mean over exactly the turns
in which that metric is present — absent values excluded from numerator and
denominator — provided no present value is exactly `0` (a present `0.0` is
falsy in Python and is dropped from the denominator only) and at least one
value is present (otherwise the division raises `ZeroDivisionError`).
Concretely, the mean over `[2.0, absent, 4.0]` is `3.0` (denominator 2),
and a full tracer run whose three completed turns have llm latencies
`2, absent, 4` reports an average llm latency of exactly `3`. -/
theorem summary_mean_skips_absent (vals : List (Option ℚ))
    (hnz : ∀ v ∈ vals, v ≠ some 0) (hpres : vals.filterMap id ≠ []) :
    (avgOf vals = Except.ok
      ((vals.filterMap id).sum / ((vals.filterMap id).length : ℚ))) ∧
    avgOf [some 2, none, some 4] = Except.ok 3 ∧
    (get_summary exTracer).map (fun sm => sm.average_latencies.llm_latency) =
      Except.ok (some 3) := by
  refine ⟨?_, ?_, ?_⟩
  · have hlen := length_filter_pyTruthy vals hnz
    have hsum := sum_getD_eq_sum_filterMap vals
    have hd : ¬((vals.filter pyTruthy).length = 0) := by
      rw [hlen]
      simpa [List.length_eq_zero] using hpres
    simp [avgOf, hd, hlen, hsum]
    simpa [List.filterMap_eq_nil_iff, not_forall] using hpres
  · simp +decide [avgOf, pyTruthy]
    norm_num
  · simp +decide [exTracer, get_summary, all_turn_metrics, avgOf, pyTruthy,
      compute_metrics, start_turn, end_turn, get_turn_id, record_event,
      initTracer, record_vad_start, record_vad_end, record_stt_start,
      record_stt_end, record_audio_out_start, record_llm_start,
      record_llm_end, record_tts_start, record_tts_end, lookupKey, setKey,
      VAD_START, VAD_END, STT_START, STT_END, LLM_START, LLM_END,
      LLM_FIRST_TOKEN, TTS_START, TTS_FIRST_TOKEN, TTS_END, AUDIO_OUT_START,
      TURN_START, TURN_END, Except.map]
    norm_num [pyTruthy, List.filter, Bind.bind, Except.bind]

/-- Witness for C3 at the claim's own example list `[2.0, absent, 4.0]`. -/
theorem summary_mean_skips_absent_witness :
    avgOf [some 2, none, some 4] = Except.ok
      (([some (2 : ℚ), none, some 4].filterMap id).sum /
        (([some (2 : ℚ), none, some 4].filterMap id).length : ℚ)) :=
  (summary_mean_skips_absent [some 2, none, some 4] (by decide)
    (by decide)).1

/-- The timestamp comparison of the merge sort is transitive. -/
theorem tsLE_trans : ∀ a b c : UnifiedEntry, tsLE a b → tsLE b c → tsLE a c := by
  intro a b c hab hbc
  simp only [tsLE, decide_eq_true_eq] at *
  exact le_trans hab hbc

/-- The timestamp comparison of the merge sort is total. -/
theorem tsLE_total : ∀ a b : UnifiedEntry, tsLE a b || tsLE b a := by
  intro a b
  simp only [tsLE, Bool.or_eq_true, decide_eq_true_eq]
  exact le_total _ _

/-- C8: the merged conversation is the union of both entry sequences
(a permutation of source 1's entries followed by source 2's), sorted by
timestamp ascending, and stably so: any two entries with identical
timestamps that appear in a given order in the concatenated sources appear
in that same order in the output. The simplified projection is computed
entry-wise from the sorted output, and its role labelling is consistent: a
conversation-type entry originating from bot 1 is always labelled `Bot 1`,
and (when the two bot names differ) one from bot 2 is always labelled
`Bot 2`. -/
theorem merge_is_stable_sorted_union (b1 b2 : BotTranscript) :
    ((merged_entries b1 b2).Perm
      (toUnifiedEntries b1 ++ toUnifiedEntries b2)) ∧
    ((merged_entries b1 b2).Pairwise fun a b => a.timestamp ≤ b.timestamp) ∧
    (∀ a b : UnifiedEntry, a.timestamp = b.timestamp →
      List.Sublist [a, b] (toUnifiedEntries b1 ++ toUnifiedEntries b2) →
      List.Sublist [a, b] (merged_entries b1 b2)) ∧
    (∀ e : UnifiedEntry,
      (e.type = "transcription" ∨ e.type = "response" ∨ e.type = "message") →
      (e.bot = b1.bot_name →
        simplify_entry b1.bot_name b2.bot_name e =
          some { bot := "Bot 1", message := e.message }) ∧
      (b1.bot_name ≠ b2.bot_name → e.bot = b2.bot_name →
        simplify_entry b1.bot_name b2.bot_name e =
          some { bot := "Bot 2", message := e.message })) ∧
    simplified_messages b1 b2 =
      (merged_entries b1 b2).filterMap
        (simplify_entry b1.bot_name b2.bot_name) := by
  refine ⟨List.mergeSort_perm _ _, ?_, ?_, ?_, rfl⟩
  · have h := List.sorted_mergeSort tsLE_trans tsLE_total
      (toUnifiedEntries b1 ++ toUnifiedEntries b2)
    exact h.imp fun hab => by simpa [tsLE] using hab
  · intro a b hts hsub
    exact List.pair_sublist_mergeSort tsLE_trans tsLE_total
      (by simp [tsLE, hts]) hsub
  · intro e hty
    constructor
    · intro hbot
      simp [simplify_entry, hty, hbot]
    · intro hne hbot
      simp [simplify_entry, hty, hbot, hne.symm]

/-- Concrete source transcript for bot A of the C8 example (entries at
timestamps `t1 < t3`). -/
def botAEx : BotTranscript :=
  { bot_name := "alice", start_time := "t0", end_time := "t9"
    entries := [{ timestamp := "t1", speaker := "alice", type := "response"
                  text := "m1" },
                { timestamp := "t3", speaker := "alice", type := "response"
                  text := "m3" }] }

/-- Concrete source transcript for bot B of the C8 example (one entry at
timestamp `t2`). -/
def botBEx : BotTranscript :=
  { bot_name := "bob", start_time := "t0", end_time := "t9"
    entries := [{ timestamp := "t2", speaker := "bob", type := "response"
                  text := "m2" }] }

/-- Witness for C8 at the claim's example: bot A at `[t1, t3]`, bot B at
`[t2]`, `t1 < t2 < t3`: the merged order is exactly `[t1, t2, t3]` and the
simplified projection maps bot A to `Bot 1` and bot B to `Bot 2`
throughout. -/
theorem merge_is_stable_sorted_union_witness :
    ((merged_entries botAEx botBEx).map (fun e => e.timestamp) =
      ["t1", "t2", "t3"]) ∧
    (simplified_messages botAEx botBEx =
      [{ bot := "Bot 1", message := "m1" },
       { bot := "Bot 2", message := "m2" },
       { bot := "Bot 1", message := "m3" }]) ∧
    ((merged_entries botAEx botBEx).Pairwise
      fun a b => a.timestamp ≤ b.timestamp) := by
  refine ⟨?_, ?_, (merge_is_stable_sorted_union botAEx botBEx).2.1⟩ <;>
    simp +decide [merged_entries, toUnifiedEntries, botAEx, botBEx,
      List.mergeSort, List.merge, tsLE, String.le_iff_toList_le,
      simplified_messages, simplify_entry]

/-- C10 (counterexample): the not-found report does not say which source
was unavailable — a state where only bot 2's transcript is missing and a
state where only bot 1's transcript is missing produce identical results
(same flag, same message, no artifacts), so no consumer of the result can
tell which source was missing. -/
theorem merge_missing_report_counterexample :
    generate_unified_transcript "sim1" (some "p1") (some "p2") (some "pu")
        { bot1_file := some (Except.ok botAEx), bot2_file := none } =
      generate_unified_transcript "sim1" (some "p1") (some "p2") (some "pu")
        { bot1_file := none, bot2_file := some (Except.ok botBEx) } ∧
    (generate_unified_transcript "sim1" (some "p1") (some "p2") (some "pu")
        { bot1_file := some (Except.ok botAEx), bot2_file := none }).ok
      = false := by
  constructor <;> rfl

/-- C10 (amended): if either source transcript is missing the merge fails
closed with the generic message `Bot transcript files not found yet`
(without identifying which source), and on every failure — missing paths,
missing files, or unreadable files — it writes neither the merged nor the
simplified artifact. -/
theorem merge_fails_closed (sid : String) (p1 p2 pu : Option String)
    (fs : MergeFS) :
    ((fs.bot1_file = none ∨ fs.bot2_file = none) →
      ¬(p1.isNone ∨ p2.isNone ∨ pu.isNone) →
      generate_unified_transcript sid p1 p2 pu fs =
        { ok := false, message := "Bot transcript files not found yet"
          unified := none, simplified := none }) ∧
    ((generate_unified_transcript sid p1 p2 pu fs).ok = false →
      (generate_unified_transcript sid p1 p2 pu fs).unified = none ∧
      (generate_unified_transcript sid p1 p2 pu fs).simplified = none) := by
  obtain ⟨f1, f2⟩ := fs
  constructor
  · rintro h hp
    simp only [Option.isNone_iff_eq_none] at hp
    rcases h with h | h <;> subst h
    · rcases f2 with _ | (e | b) <;> simp [generate_unified_transcript, hp]
    · rcases f1 with _ | (e | b) <;> simp [generate_unified_transcript, hp]
  · intro hok
    by_cases hp : p1 = none ∨ p2 = none ∨ pu = none
    · simp [generate_unified_transcript, hp]
    · rcases f1 with _ | (e | b) <;> rcases f2 with _ | (e2 | b2) <;>
        simp [generate_unified_transcript, hp] at hok ⊢

/-- Witness for C10 at a concrete state with only bot 1's transcript
missing. -/
theorem merge_fails_closed_witness :
    generate_unified_transcript "sim1" (some "p1") (some "p2") (some "pu")
        { bot1_file := none, bot2_file := some (Except.ok botBEx) } =
      { ok := false, message := "Bot transcript files not found yet"
        unified := none, simplified := none } :=
  (merge_fails_closed "sim1" (some "p1") (some "p2") (some "pu")
    { bot1_file := none, bot2_file := some (Except.ok botBEx) }).1
    (Or.inl rfl) (by simp)

/-- Example tracker configuration: goal detector and stop-signal path both
configured. -/
def cfgEx : TrackerConfig :=
  { bot_name := "bot1", has_goal_detector := true
    goal_description := some "sell the car", has_stop_signal_path := true }

/-- Judgment service reporting goal met at confidence exactly 0.70. -/
def svcBoundary : String → Except String GoalJson := fun _ =>
  Except.ok
    { goal_met := some true, confidence := some (7/10)
      reasoning := some "at threshold" }

/-- Judgment service reporting goal met at confidence 0.90. -/
def svcHigh : String → Except String GoalJson := fun _ =>
  Except.ok
    { goal_met := some true, confidence := some (9/10)
      reasoning := some "confident" }

/-- C6: in the goal-check block, the goal is treated as met (the `goal_met`
flag becomes true) if and only if the judgment result reports
`goal_met = true` and `confidence` strictly greater than `0.7` — whatever
the outcome of the marker write, since the flag is set before the write is
attempted. -/
theorem goal_met_threshold (cfg : TrackerConfig) (ts : TrackerState)
    (service : String → Except String GoalJson) (write_fails : Bool)
    (h : ts.goal_met = false) :
    (goal_check_step cfg ts service write_fails).goal_met = true ↔
      ((check_goal_met (recent_history ts.transcript) cfg.goal_description
          service).goal_met = true ∧
        (7 : ℚ)/10 <
          (check_goal_met (recent_history ts.transcript) cfg.goal_description
            service).confidence) := by
  by_cases hc :
      (check_goal_met (recent_history ts.transcript) cfg.goal_description
          service).goal_met = true ∧
        (7 : ℚ)/10 <
          (check_goal_met (recent_history ts.transcript) cfg.goal_description
            service).confidence
  · simp only [goal_check_step, hc, if_true, iff_true]
    split_ifs <;> simp_all
  · simp [goal_check_step, hc, h]

/-- Witness for C6: a judgment at confidence exactly 0.70 (not `> 0.7`) is
treated as not-met, while one at 0.90 is treated as met. -/
theorem goal_met_threshold_witness :
    (goal_check_step cfgEx initTracker svcBoundary false).goal_met = false ∧
    (goal_check_step cfgEx initTracker svcHigh false).goal_met = true := by
  constructor
  · have hc : check_goal_met (recent_history initTracker.transcript)
        cfgEx.goal_description svcBoundary =
        { goal_met := true, confidence := 7/10
          reasoning := "at threshold" } := rfl
    have h := goal_met_threshold cfgEx initTracker svcBoundary false rfl
    rw [hc] at h
    cases hb : (goal_check_step cfgEx initTracker svcBoundary false).goal_met
    · rfl
    · exact absurd (h.mp hb).2 (by norm_num)
  · have hc : check_goal_met (recent_history initTracker.transcript)
        cfgEx.goal_description svcHigh =
        { goal_met := true, confidence := 9/10
          reasoning := "confident" } := rfl
    apply (goal_met_threshold cfgEx initTracker svcHigh false rfl).mpr
    rw [hc]
    exact ⟨rfl, by norm_num⟩

/-- A goal-check step that leaves no stop-signal file behind cannot have
started with one: the code path never deletes the file, whether or not the
marker write raises. -/
theorem goal_check_step_file_none (cfg : TrackerConfig) (ts : TrackerState)
    (service : String → Except String GoalJson) (write_fails : Bool)
    (h : (goal_check_step cfg ts service write_fails).stop_signal_file =
      none) :
    ts.stop_signal_file = none := by
  by_cases hc :
      (check_goal_met (recent_history ts.transcript) cfg.goal_description
          service).goal_met = true ∧
        (7 : ℚ)/10 <
          (check_goal_met (recent_history ts.transcript) cfg.goal_description
            service).confidence
  · by_cases hp : cfg.has_stop_signal_path = true
    · by_cases hw : write_fails = true
      · simpa [goal_check_step, hc, hp, hw] using h
      · simp [goal_check_step, hc, hp, hw] at h
    · simpa [goal_check_step, hc, hp] using h
  · simpa [goal_check_step, hc] using h

/-- C4 (amended): the stop-signal write is overwrite-on-detection, not
write-once. Every positive detection (result reporting `goal_met` with
confidence above 0.7, with a stop-signal path configured) whose marker
write goes through sets the file to the current judgment payload, replacing
whatever was there; on the other hand no frame — whatever its write
outcome — ever deletes the file (if no file exists after a frame, none
existed before it). -/
theorem stop_signal_overwrite (cfg : TrackerConfig) (ts : TrackerState)
    (service : String → Except String GoalJson) (tr : TracerState)
    (inp : FrameInput)
    (hpos : (check_goal_met (recent_history ts.transcript)
        cfg.goal_description service).goal_met = true ∧
      (7 : ℚ)/10 < (check_goal_met (recent_history ts.transcript)
        cfg.goal_description service).confidence)
    (hpath : cfg.has_stop_signal_path = true) :
    ((goal_check_step cfg ts service false).stop_signal_file =
      some { reason := "goal_met"
             result := check_goal_met (recent_history ts.transcript)
               cfg.goal_description service }) ∧
    ((process_frame cfg ts tr inp).1.stop_signal_file = none →
      ts.stop_signal_file = none) := by
  constructor
  · simp [goal_check_step, hpos, hpath]
  · intro hnone
    rcases inp with ⟨frame, nowStr, now, svc, wf⟩
    cases frame with
    | other => exact hnone
    | llmText text =>
      simp only [process_frame] at hnone
      repeat' split at hnone
      all_goals exact hnone
    | ttsText text =>
      simp only [process_frame] at hnone
      split at hnone
      · exact hnone
      · split at hnone
        · have h2 := goal_check_step_file_none _ _ _ _ hnone
          exact h2
        · exact hnone

/-- Witness for C4 at a concrete positive detection with a successful
write. -/
theorem stop_signal_overwrite_witness :
    (goal_check_step cfgEx initTracker svcHigh false).stop_signal_file =
      some { reason := "goal_met"
             result := { goal_met := true, confidence := 9/10
                         reasoning := "confident" } } := by
  have hc : check_goal_met (recent_history initTracker.transcript)
      cfgEx.goal_description svcHigh =
      { goal_met := true, confidence := 9/10
        reasoning := "confident" } := rfl
  have h := (stop_signal_overwrite cfgEx initTracker svcHigh
      (initTracer "bot1")
      { frame := Frame.other, nowStr := "", now := 0, service := svcHigh
        write_fails := false }
      (by rw [hc]; exact ⟨rfl, by norm_num⟩) rfl).1
  rw [hc] at h
  exact h

/-- Judgment service of the first positive detection of the C4
counterexample. -/
def svcFirst : String → Except String GoalJson := fun _ =>
  Except.ok
    { goal_met := some true, confidence := some (9/10)
      reasoning := some "first detection" }

/-- Judgment service of the second positive detection of the C4
counterexample. -/
def svcSecond : String → Except String GoalJson := fun _ =>
  Except.ok
    { goal_met := some true, confidence := some (9/10)
      reasoning := some "second detection" }

/-- A spoken (TTS text) frame carrying the given judgment service, whose
marker write (if attempted) succeeds. -/
def ttsInp (svc : String → Except String GoalJson) : FrameInput :=
  { frame := Frame.ttsText "ok", nowStr := "2024-01-01 10:00:00", now := 0
    service := svc, write_fails := false }

/-- A spoken (TTS text) frame carrying the given judgment service, whose
marker write (if attempted) raises an I/O error. -/
def ttsInpFail (svc : String → Except String GoalJson) : FrameInput :=
  { frame := Frame.ttsText "ok", nowStr := "2024-01-01 10:00:00", now := 0
    service := svc, write_fails := true }

/-- C4 (counterexample): two positive detections in one run. After the
first (at spoken turn 3) the stop-signal file holds the first judgment
payload; after the second (at spoken turn 6) the same file holds the second
payload — the existing signal file was overwritten, so the file is not
write-once and repeated positive detections do rewrite the marker. -/
theorem stop_signal_overwrite_counterexample :
    ((run_frames cfgEx (initTracker, initTracer "bot1")
        [ttsInp svcFirst, ttsInp svcFirst, ttsInp svcFirst]).1.stop_signal_file =
      some { reason := "goal_met"
             result := { goal_met := true, confidence := 9/10
                         reasoning := "first detection" } }) ∧
    ((run_frames cfgEx (initTracker, initTracer "bot1")
        [ttsInp svcFirst, ttsInp svcFirst, ttsInp svcFirst,
         ttsInp svcSecond, ttsInp svcSecond, ttsInp svcSecond]).1.stop_signal_file =
      some { reason := "goal_met"
             result := { goal_met := true, confidence := 9/10
                         reasoning := "second detection" } }) ∧
    some ({ reason := "goal_met"
            result := { goal_met := true, confidence := 9/10
                        reasoning := "first detection" } } : StopSignalFile) ≠
      some ({ reason := "goal_met"
              result := { goal_met := true, confidence := 9/10
                          reasoning := "second detection" } } : StopSignalFile) := by
  refine ⟨?_, ?_, by simp⟩ <;>
  · simp +decide [run_frames, process_frame, goal_check_step, check_goal_met,
      recent_history, goalCheckIssued, cfgEx, ttsInp, svcFirst, svcSecond,
      initTracker, initTracer, record_tts_start, record_event, get_turn_id,
      TTS_START, LLM_FIRST_TOKEN, TTS_FIRST_TOKEN, lookupKey, setKey]
    norm_num [goal_check_step, check_goal_met, recent_history]

/-- When a goal check is issued, the just-incremented turn count is at
least 3 beyond the last-checked turn. -/
theorem goalCheckIssued_le (cfg : TrackerConfig) (ts : TrackerState)
    (inp : FrameInput) (h : goalCheckIssued cfg ts inp = true) :
    ts.last_goal_check_turn + 3 ≤ ts.turn_count + 1 := by
  rcases inp with ⟨frame, nowStr, now, svc⟩
  cases frame with
  | llmText text => simp [goalCheckIssued] at h
  | other => simp [goalCheckIssued] at h
  | ttsText text =>
    simp only [goalCheckIssued, Bool.and_eq_true, decide_eq_true_eq] at h
    exact h.2

/-- A frame that issues no goal check leaves the last-checked turn
unchanged and never decreases the turn count. -/
theorem process_frame_not_issued (cfg : TrackerConfig) (ts : TrackerState)
    (tr : TracerState) (inp : FrameInput)
    (h : goalCheckIssued cfg ts inp = false) :
    (process_frame cfg ts tr inp).1.last_goal_check_turn =
      ts.last_goal_check_turn ∧
    ts.turn_count ≤ (process_frame cfg ts tr inp).1.turn_count := by
  rcases inp with ⟨frame, nowStr, now, svc⟩
  cases frame with
  | other => exact ⟨rfl, le_refl _⟩
  | llmText text =>
    simp only [process_frame]
    split
    · exact ⟨rfl, le_refl _⟩
    · split
      · split
        · exact ⟨rfl, le_refl _⟩
        · exact ⟨rfl, le_refl _⟩
      · exact ⟨rfl, le_refl _⟩
  | ttsText text =>
    simp only [process_frame]
    split
    · exact ⟨rfl, le_refl _⟩
    · rename_i ht
      split
      · rename_i hcond
        exfalso
        simp only [goalCheckIssued, Bool.and_eq_true, decide_eq_true_eq,
          Bool.and_eq_false_iff, decide_eq_false_iff_not] at h
        rcases h with (h | h) | h
        · exact h ht
        · exact absurd hcond.1 (by simp [h])
        · exact h hcond.2
      · exact ⟨rfl, Nat.le_succ _⟩

/-- A frame that issues a goal check whose `try` body completes (the marker
write, if attempted, succeeds) records the incremented turn count as the
last-checked turn. -/
theorem process_frame_issued (cfg : TrackerConfig) (ts : TrackerState)
    (tr : TracerState) (inp : FrameInput)
    (h : goalCheckIssued cfg ts inp = true)
    (hw : inp.write_fails = false) :
    (process_frame cfg ts tr inp).1.last_goal_check_turn =
      ts.turn_count + 1 ∧
    (process_frame cfg ts tr inp).1.turn_count = ts.turn_count + 1 := by
  rcases inp with ⟨frame, nowStr, now, svc, wf⟩
  subst hw
  cases frame <;>
    simp only [goalCheckIssued, Bool.and_eq_true, decide_eq_true_eq] at h
  case ttsText text =>
    obtain ⟨⟨ht, hg⟩, hle⟩ := h
    simp only [process_frame]
    rw [if_neg ht, if_pos ⟨hg, hle⟩]
    refine ⟨?_, ?_⟩ <;>
    · simp only [goal_check_step]
      split_ifs <;> first | rfl | simp_all
  · exact absurd h (by simp)
  · exact absurd h (by simp)

/-- Cadence invariant, by induction over the frame sequence: from any state
whose last-checked turn does not exceed the turn count, and over inputs
whose marker writes all succeed, the recorded check turns are spaced at
least 3 apart, and the first of them is at least 3 beyond the state's
last-checked turn. -/
theorem check_turns_spaced (cfg : TrackerConfig) :
    ∀ (inputs : List FrameInput) (ts : TrackerState) (tr : TracerState),
    (∀ inp ∈ inputs, inp.write_fails = false) →
    ts.last_goal_check_turn ≤ ts.turn_count →
    List.Chain' (fun a b => a + 3 ≤ b) (check_turns cfg (ts, tr) inputs) ∧
    (∀ c ∈ (check_turns cfg (ts, tr) inputs).head?,
      ts.last_goal_check_turn + 3 ≤ c) := by
  intro inputs
  induction inputs with
  | nil => intro ts tr _ _; simp [check_turns]
  | cons inp rest ih =>
    intro ts tr hwall hinv
    have hw : inp.write_fails = false := hwall inp (List.mem_cons_self _ _)
    have hwrest : ∀ i ∈ rest, i.write_fails = false := fun i hi =>
      hwall i (List.mem_cons_of_mem _ hi)
    by_cases hi : goalCheckIssued cfg ts inp = true
    · obtain ⟨hl, ht⟩ := process_frame_issued cfg ts tr inp hi hw
      have hinv2 : (process_frame cfg ts tr inp).1.last_goal_check_turn ≤
          (process_frame cfg ts tr inp).1.turn_count := by rw [hl, ht]
      obtain ⟨ch, hh⟩ := ih (process_frame cfg ts tr inp).1
        (process_frame cfg ts tr inp).2 hwrest hinv2
      have hct : check_turns cfg (ts, tr) (inp :: rest) =
          (ts.turn_count + 1) ::
            check_turns cfg (process_frame cfg ts tr inp) rest := by
        simp [check_turns, hi]
      rw [hct]
      constructor
      · refine List.chain'_cons'.mpr ⟨?_, ch⟩
        intro y hy
        have hy2 := hh y hy
        rw [hl] at hy2
        omega
      · intro c hc
        simp only [List.head?_cons, Option.mem_def, Option.some.injEq] at hc
        have := goalCheckIssued_le cfg ts inp hi
        omega
    · have hi2 : goalCheckIssued cfg ts inp = false := by
        revert hi; cases goalCheckIssued cfg ts inp <;> simp
      obtain ⟨hl, ht⟩ := process_frame_not_issued cfg ts tr inp hi2
      have hinv2 : (process_frame cfg ts tr inp).1.last_goal_check_turn ≤
          (process_frame cfg ts tr inp).1.turn_count := by
        rw [hl]; exact le_trans hinv ht
      obtain ⟨ch, hh⟩ := ih (process_frame cfg ts tr inp).1
        (process_frame cfg ts tr inp).2 hwrest hinv2
      have hct : check_turns cfg (ts, tr) (inp :: rest) =
          check_turns cfg (process_frame cfg ts tr inp) rest := by
        simp [check_turns, hi2]
      rw [hct]
      refine ⟨ch, fun c hc => ?_⟩
      have hc2 := hh c hc
      rw [hl] at hc2
      omega

/-- C5 (counterexample): a marker-write I/O failure breaks the cadence. On
a freshly constructed tracker fed four spoken frames against an
always-positive service whose marker write fails at the third frame, the
goal-check block raises after `check_goal_met` but before
`last_goal_check_turn` is updated, so judgment-service calls are issued at
spoken turns 3 **and 4** — the second check comes only 1 additional spoken
turn after the first, and the recorded check turns violate the 3-turn
spacing. -/
theorem goal_check_cadence_counterexample :
    check_turns cfgEx (initTracker, initTracer "bot1")
      [ttsInp svcFirst, ttsInp svcFirst, ttsInpFail svcFirst,
       ttsInp svcSecond] = [3, 4] ∧
    ¬ List.Chain' (fun a b => a + 3 ≤ b) [3, 4] := by
  constructor
  · simp +decide [check_turns, goalCheckIssued, run_frames, process_frame,
      goal_check_step, check_goal_met, recent_history, cfgEx, ttsInp,
      ttsInpFail, svcFirst, svcSecond, initTracker, initTracer,
      record_tts_start, record_event, get_turn_id, TTS_START,
      LLM_FIRST_TOKEN, TTS_FIRST_TOKEN, lookupKey, setKey]
    norm_num [goal_check_step, check_goal_met, recent_history]
  · simp [List.chain'_cons]

/-- C5 (amended): starting from a freshly constructed tracker, over any
frame sequence in which every attempted marker write succeeds (so no
goal-check `try` body raises and `last_goal_check_turn` is recorded after
every check), the turn counts at which judgment-service calls are issued
are always at least 3 apart — no new check before 3 additional spoken
turns have elapsed since the previous one. Concretely, six consecutive
spoken frames against an always-positive service produce checks exactly at
spoken turns 3 and 6. -/
theorem goal_check_cadence (cfg : TrackerConfig) (tr : TracerState)
    (inputs : List FrameInput)
    (hw : ∀ inp ∈ inputs, inp.write_fails = false) :
    List.Chain' (fun a b => a + 3 ≤ b)
      (check_turns cfg (initTracker, tr) inputs) ∧
    check_turns cfgEx (initTracker, initTracer "bot1")
      [ttsInp svcFirst, ttsInp svcFirst, ttsInp svcFirst,
       ttsInp svcSecond, ttsInp svcSecond, ttsInp svcSecond] = [3, 6] := by
  constructor
  · exact (check_turns_spaced cfg inputs initTracker tr hw
      (by simp [initTracker])).1
  · simp +decide [check_turns, goalCheckIssued, run_frames, process_frame,
      goal_check_step, check_goal_met, recent_history, cfgEx, ttsInp,
      svcFirst, svcSecond, initTracker, initTracer, record_tts_start,
      record_event, get_turn_id, TTS_START, LLM_FIRST_TOKEN,
      TTS_FIRST_TOKEN, lookupKey, setKey]
    norm_num [goal_check_step, check_goal_met, recent_history]

/-- Witness for C5 at the concrete six-frame all-writes-succeed run: the
check turns [3, 6] are 3 apart. -/
theorem goal_check_cadence_witness :
    List.Chain' (fun a b => a + 3 ≤ b)
      (check_turns cfgEx (initTracker, initTracer "bot1")
        [ttsInp svcFirst, ttsInp svcFirst, ttsInp svcFirst,
         ttsInp svcSecond, ttsInp svcSecond, ttsInp svcSecond]) :=
  (goal_check_cadence cfgEx (initTracer "bot1")
    [ttsInp svcFirst, ttsInp svcFirst, ttsInp svcFirst,
     ttsInp svcSecond, ttsInp svcSecond, ttsInp svcSecond]
    (by intro inp hinp
        simp only [List.mem_cons, List.not_mem_nil, or_false] at hinp
        rcases hinp with h | h | h | h | h | h <;> subst h <;> rfl)).1

end VoiceEval
